import Mathlib

/-
Verification of the content-rendering pipeline in
`prompt_toolkit/layout/controls.py` (the `UIContent`, `TokenListControl`,
`DummyControl` and `BufferControl` classes).

The embedding is shallow: Python classes become Lean structures, methods
become functions, Python `int` becomes `Int` (and `Nat` for geometry that
the source only ever uses non-negatively, such as widths), raising
`IndexError` becomes `Except.error ()`, and the ambient wall clock
(`time.time()`) becomes an explicit timestamp argument.  External
collaborators that the source only calls through an interface (`Document`,
`Buffer` methods, the lexer, the processor chain) are modelled as records
of the observation functions the source uses.
-/

namespace Controls

/-- Style tags.  `Token.Root` is the plain root token (Python `Token`),
`Token.SetCursorPosition` and `Token.SetMenuPosition` are the two sentinel
tags scanned for by `TokenListControl.create_content`; other style tags are
represented by `Token.Custom`. -/
inductive Token where
  | Root
  | SetCursorPosition
  | SetMenuPosition
  | Custom (n : Nat)
deriving DecidableEq, Repr

/-- A `(Token, text)` tuple: one styled segment of a line. -/
abbrev Segment : Type := Token × String

/-- `Point` (from `prompt_toolkit.layout.screen`): an `(x, y)` pair. -/
structure Point where
  x : Int
  y : Int
deriving DecidableEq, Repr

/-- `UIContent`: content generated by a user control.  `get_line` may itself
fail with an index error (it is an arbitrary callable in the source, e.g.
Python list indexing for `TokenListControl`), hence the `Except` codomain. -/
structure UIContent where
  get_line : Int → Except Unit (List Segment)
  line_count : Int
  cursor_position : Point
  menu_position : Option Point
  show_cursor : Bool

/-- `UIContent.__getitem__`: return `get_line lineno` when
`lineno < line_count`, otherwise raise `IndexError`. -/
def UIContent.getitem (c : UIContent) (lineno : Int) : Except Unit (List Segment) :=
  if lineno < c.line_count then c.get_line lineno else Except.error ()

/-- `UIContent.get_height_for_text`, with the call `get_cwidth(text)`
abstracted into the `line_width` argument (`get_cwidth` lives in
`prompt_toolkit.utils`, outside this module; it returns the display
cell-width of the text, a natural number).  The source computes
`divmod(line_width, width)`, catches the `ZeroDivisionError` for
`width = 0` by returning `10 ** 10`, adds one to the quotient when the
remainder is non-zero, and floors the result at `1`. -/
def UIContent.get_height_for_text (line_width width : Nat) : Nat :=
  if width = 0 then
    10 ^ 10
  else
    max 1 (if line_width % width ≠ 0 then line_width / width + 1 else line_width / width)

/-- Ceiling division of naturals through `ℚ` agrees with the usual
`(a + b - 1) / b` formula. -/
theorem nat_ceil_div_eq (lw w : Nat) (hw : 0 < w) :
    ⌈(lw : ℚ) / (w : ℚ)⌉₊ = (lw + w - 1) / w := by
  rcases Nat.eq_zero_or_pos lw with h0 | h0
  · subst h0
    have hz : (w - 1) / w = 0 := Nat.div_eq_of_lt (by omega)
    simp [hz]
  · have hn0 : 0 < (lw + w - 1) / w := Nat.div_pos (by omega) hw
    obtain ⟨k, hk⟩ : ∃ k, (lw + w - 1) / w = k + 1 := ⟨(lw + w - 1) / w - 1, by omega⟩
    have hdm := Nat.div_add_mod (lw + w - 1) w
    have hr : (lw + w - 1) % w < w := Nat.mod_lt _ hw
    rw [hk] at hdm
    have hmul : w * (k + 1) = w * k + w := by ring
    rw [hmul] at hdm
    have hub : lw ≤ (k + 1) * w := by
      have h2 : (k + 1) * w = w * k + w := by ring
      omega
    have hlbn : k * w < lw := by
      have h3 : k * w = w * k := Nat.mul_comm k w
      omega
    have hwq : (0 : ℚ) < (w : ℚ) := by exact_mod_cast hw
    rw [hk, Nat.ceil_eq_iff (by omega)]
    constructor
    · have hlb : ((k : ℚ) * (w : ℚ)) < (lw : ℚ) := by exact_mod_cast hlbn
      simpa using (lt_div_iff₀ hwq).mpr hlb
    · rw [div_le_iff₀ hwq]
      exact_mod_cast hub

/-- The natural-number ceiling-division formula, split on the remainder. -/
theorem ceil_div_formula (lw w : Nat) (hw : 0 < w) :
    (lw + w - 1) / w = if lw % w ≠ 0 then lw / w + 1 else lw / w := by
  have hdm := Nat.div_add_mod lw w
  have hrw : lw % w < w := Nat.mod_lt _ hw
  rcases Nat.eq_zero_or_pos (lw % w) with hr | hr
  · have e1 : lw + w - 1 = w * (lw / w) + (w - 1) := by omega
    rw [e1, Nat.mul_add_div hw, Nat.div_eq_of_lt (show w - 1 < w by omega),
      Nat.add_zero, if_neg (by omega)]
  · have h4 : w * (lw / w + 1) = w * (lw / w) + w := by ring
    have e1 : lw + w - 1 = w * (lw / w + 1) + (lw % w - 1) := by omega
    rw [e1, Nat.mul_add_div hw, Nat.div_eq_of_lt (show lw % w - 1 < w by omega),
      Nat.add_zero, if_pos (by omega)]

/-- C1: for every text (represented by its display cell-width) and every
positive width, `UIContent.get_height_for_text` returns
`max 1 ⌈line_width / width⌉`; in particular the result is at least `1`. -/
theorem get_height_for_text_eq_ceil (line_width width : Nat) (hw : 0 < width) :
    UIContent.get_height_for_text line_width width
      = max 1 ⌈(line_width : ℚ) / (width : ℚ)⌉₊
    ∧ 1 ≤ UIContent.get_height_for_text line_width width := by
  have hform : UIContent.get_height_for_text line_width width
      = max 1 ((line_width + width - 1) / width) := by
    unfold UIContent.get_height_for_text
    rw [if_neg (by omega), ceil_div_formula line_width width hw]
  refine ⟨?_, ?_⟩
  · rw [hform, nat_ceil_div_eq line_width width hw]
  · rw [hform]
    exact le_max_left _ _

/-- Witness for C1 at display width 5 and width 2 (height 3). -/
theorem get_height_for_text_eq_ceil_witness :
    0 < 2 ∧ (UIContent.get_height_for_text 5 2 = max 1 ⌈(5 : ℚ) / (2 : ℚ)⌉₊
      ∧ 1 ≤ UIContent.get_height_for_text 5 2) := by
  refine ⟨by decide, ?_⟩
  have h := get_height_for_text_eq_ceil 5 2 (by decide)
  simpa using h

/-- C7 counterexample: for a text of display cell-width `10 ^ 10 + 1`
(e.g. ten billion and one ASCII characters), rendering at width `1` needs
`10 ^ 10 + 1` rows, which exceeds the zero-width sentinel `10 ^ 10`; so the
sentinel is not `≥` every positive-width height on the same text. -/
theorem get_height_sentinel_counterexample :
    ¬ (UIContent.get_height_for_text (10 ^ 10 + 1) 1
        ≤ UIContent.get_height_for_text (10 ^ 10 + 1) 0) := by
  decide

/-- C7 (amended): `get_height_for_text text 0` never fails and returns the
sentinel `10 ^ 10`, and the sentinel dominates the height returned for every
width `≥ 1` on the same text, provided the text's display cell-width is at
most `10 ^ 10` (the sentinel value itself). -/
theorem get_height_sentinel_ge (line_width width : Nat)
    (hlw : line_width ≤ 10 ^ 10) (hw : 1 ≤ width) :
    UIContent.get_height_for_text line_width 0 = 10 ^ 10
    ∧ UIContent.get_height_for_text line_width width
        ≤ UIContent.get_height_for_text line_width 0 := by
  have hpow : (10 : Nat) ^ 10 = 10000000000 := by norm_num
  constructor
  · simp [UIContent.get_height_for_text]
  · unfold UIContent.get_height_for_text
    rw [if_pos rfl, if_neg (by omega)]
    have hdm := Nat.div_add_mod line_width width
    have h1 : line_width / width ≤ width * (line_width / width) :=
      Nat.le_mul_of_pos_left _ (by omega)
    rcases Nat.eq_zero_or_pos (line_width % width) with hr | hr
    · rw [if_neg (by omega)]
      exact max_le (by omega) (by omega)
    · rw [if_pos (by omega)]
      exact max_le (by omega) (by omega)

/-- Witness for C7's amended theorem at display width 5, width 2. -/
theorem get_height_sentinel_ge_witness :
    5 ≤ 10 ^ 10 ∧ 1 ≤ 2 ∧ (UIContent.get_height_for_text 5 0 = 10 ^ 10
      ∧ UIContent.get_height_for_text 5 2 ≤ UIContent.get_height_for_text 5 0) :=
  ⟨by norm_num, by decide, get_height_sentinel_ge 5 2 (by norm_num) (by decide)⟩

/-- `UIContent.__init__` with its defaults: a missing cursor position becomes
`Point(0, 0)` (the `cursor_position or Point(0, 0)` line). -/
def UIContent.make (get_line : Int → Except Unit (List Segment)) (line_count : Int)
    (cursor_position : Option Point) (menu_position : Option Point)
    (show_cursor : Bool) : UIContent :=
  ⟨get_line, line_count, cursor_position.getD ⟨0, 0⟩, menu_position, show_cursor⟩

/-- The read-only `Document` interface consumed by this module (the class
itself lives in `prompt_toolkit.document`, outside this module): a record of
the observations the source makes on a document snapshot. -/
structure Document where
  text : String
  line_count : Int
  cursor_position : Int
  cursor_position_row : Int
  cursor_position_col : Int
  translate_index_to_position : Int → Int × Int
  translate_row_col_to_index : Int → Int → Int
  find_boundaries_of_current_word : Int × Int

/-- Modelled from the spec: `SimpleCache` (`prompt_toolkit.cache`, outside
this module) is a bounded get-or-compute cache; on a miss it computes the
value, stores it, and evicts the oldest entry when the size bound is
exceeded. -/
structure SimpleCache (κ : Type) (α : Type) where
  maxsize : Nat
  entries : List (κ × α)

/-- Lookup in a `SimpleCache` (the `key in self._data` test). -/
def SimpleCache.find {κ α : Type} [DecidableEq κ] (c : SimpleCache κ α) (key : κ) :
    Option α :=
  match c.entries.find? (fun e => decide (e.1 = key)) with
  | some e => some e.2
  | none => none

/-- Store a freshly computed value, evicting the oldest entry when the cache
grows past `maxsize`. -/
def SimpleCache.insert {κ α : Type} [DecidableEq κ] (c : SimpleCache κ α) (key : κ)
    (v : α) : SimpleCache κ α :=
  ⟨c.maxsize,
    if c.maxsize < (c.entries ++ [(key, v)]).length then
      (c.entries ++ [(key, v)]).drop 1
    else c.entries ++ [(key, v)]⟩

/-- `SimpleCache.get(key, getter)`: return the cached value, or compute,
store and return it.  The returned `Bool` reports whether `getter` was
invoked (a miss), which is how call counts are instrumented. -/
def SimpleCache.get {κ α : Type} [DecidableEq κ] (c : SimpleCache κ α) (key : κ)
    (getter : Unit → α) : α × SimpleCache κ α × Bool :=
  match c.find key with
  | some v => (v, c, false)
  | none => (getter (), c.insert key (getter ()), true)

theorem find?_append_of_none {β : Type} (p : β → Bool) (l₁ l₂ : List β)
    (h : l₁.find? p = none) : (l₁ ++ l₂).find? p = l₂.find? p := by
  induction l₁ with
  | nil => simp
  | cons a t ih =>
    cases hpa : p a with
    | true =>
      rw [List.find?_cons_of_pos _ hpa] at h
      cases h
    | false =>
      rw [List.find?_cons_of_neg _ (by simp [hpa])] at h
      rw [List.cons_append, List.find?_cons_of_neg _ (by simp [hpa])]
      exact ih h

/-- After a miss stored the value, the same key is found again (the cache
holds at least one entry, so the eviction cannot remove the fresh entry). -/
theorem SimpleCache.find_insert {κ α : Type} [DecidableEq κ] (c : SimpleCache κ α)
    (key : κ) (v : α)
    (hf : c.entries.find? (fun e => decide (e.1 = key)) = none)
    (hmax : 1 ≤ c.maxsize) :
    (c.insert key v).find key = some v := by
  unfold SimpleCache.insert SimpleCache.find
  cases hes : c.entries with
  | nil =>
    have h1 : ¬ (c.maxsize < 1) := by omega
    simp [List.find?, h1]
  | cons a t =>
    rw [hes] at hf
    have hall := List.find?_eq_none.mp hf
    have hpa : decide (a.1 = key) = false := by
      have h2 := hall a (by simp)
      simpa using h2
    have htn : t.find? (fun e => decide (e.1 = key)) = none :=
      List.find?_eq_none.mpr (fun x hx => hall x (by simp [hx]))
    have htail : (t ++ [(key, v)]).find? (fun e => decide (e.1 = key))
        = some (key, v) := by
      rw [find?_append_of_none _ t _ htn]
      simp [List.find?]
    by_cases hlen : c.maxsize < (a :: (t ++ [(key, v)])).length
    · simp only [List.cons_append, if_pos hlen, List.drop_succ_cons, List.drop_zero]
      rw [htail]
    · simp only [List.cons_append, if_neg hlen]
      rw [List.find?_cons_of_neg _ (by simp [hpa]), htail]

/-- Getting the same key twice: the second `get` is a hit returning the same
value, and the getter is not invoked again. -/
theorem SimpleCache.get_get {κ α : Type} [DecidableEq κ] (c : SimpleCache κ α)
    (key : κ) (g g' : Unit → α) (hmax : 1 ≤ c.maxsize) :
    ((c.get key g).2.1.get key g').1 = (c.get key g).1
    ∧ ((c.get key g).2.1.get key g').2.2 = false := by
  cases hx : c.find key with
  | some v => simp [SimpleCache.get, hx]
  | none =>
    have hf : c.entries.find? (fun e => decide (e.1 = key)) = none := by
      unfold SimpleCache.find at hx
      cases hq : c.entries.find? (fun e => decide (e.1 = key)) with
      | some e => rw [hq] at hx; simp at hx
      | none => rfl
    have h2 := SimpleCache.find_insert c key (g ()) hf hmax
    simp [SimpleCache.get, hx, h2]

/-- A `(Token, text)` or `(Token, text, handler)` tuple fed to a
`TokenListControl`; the optional third component is the opaque mouse
handler. -/
abbrev TLItem : Type := Token × String × Option Nat

/-- Split a character list at newline characters (Python
`text.split('\x0a')` semantics: always at least one part, empty parts
kept). -/
def split_chars (cs : List Char) : List (List Char) :=
  match cs with
  | [] => [[]]
  | c :: rest =>
    let r := split_chars rest
    if c = '\n' then [] :: r
    else
      match r with
      | [] => [[c]]
      | l :: ls => (c :: l) :: ls

/-- Python `str.split` on newline, on the embedded string type. -/
def pySplitNewlines (s : String) : List String :=
  (split_chars s.data).map (fun cs => ⟨cs⟩)

/-- One step of `split_lines` for a single token tuple: the first part
extends the current line, each further part starts a new line. -/
def split_lines_step (acc : List (List TLItem) × List TLItem) (item : TLItem) :
    List (List TLItem) × List TLItem :=
  match pySplitNewlines item.2.1 with
  | [] => acc
  | p :: rest =>
    let cur := acc.2 ++ [(item.1, p, item.2.2)]
    rest.foldl (fun a q => (a.1 ++ [a.2], [(item.1, q, item.2.2)])) (acc.1, cur)

/-- Modelled from the spec: `split_lines` (`prompt_toolkit.layout.utils`,
outside this module) splits a token list into display lines on the newline
characters inside the text runs. -/
def split_lines (items : List TLItem) : List (List TLItem) :=
  let r := items.foldl split_lines_step ([], [])
  r.1 ++ [r.2]

/-- The `token_lines` local of `TokenListControl.create_content`: the split
lines with the mouse handlers stripped (`tuple(item[:2])`). -/
def TokenListControl.token_lines (tokens : List TLItem) : List (List Segment) :=
  (split_lines tokens).map (fun line => line.map (fun it => (it.1, it.2.1)))

/-- The inner scan of `get_cursor_position`: the running display column of
the first occurrence of `tok` in one line. -/
def find_token_x (line : List Segment) (tok : Token) (x : Int) : Option Int :=
  match line with
  | [] => none
  | (t, text) :: rest =>
    if t = tok then some x else find_token_x rest tok (x + (text.length : Int))

/-- `get_cursor_position` of `TokenListControl.create_content`: scan the
split lines for the first occurrence of a sentinel token and report its
display coordinates. -/
def get_cursor_position (token_lines : List (List Segment)) (tok : Token) (y : Int) :
    Option Point :=
  match token_lines with
  | [] => none
  | line :: rest =>
    match find_token_x line tok 0 with
    | some x => some ⟨x, y⟩
    | none => get_cursor_position rest tok (y + 1)

/-- Python list indexing `xs[i]`: non-negative indices from the front,
negative indices count from the end, anything else raises `IndexError`. -/
def pyIndex {β : Type} (xs : List β) (i : Int) : Except Unit β :=
  if 0 ≤ i then
    match xs.get? i.toNat with
    | some v => Except.ok v
    | none => Except.error ()
  else if 0 ≤ i + (xs.length : Int) then
    match xs.get? (i + (xs.length : Int)).toNat with
    | some v => Except.ok v
    | none => Except.error ()
  else Except.error ()

/-- The mutable attributes of a `TokenListControl`: the two caches built in
`__init__` and the `_tokens` render info. -/
structure TokenListState where
  content_cache : SimpleCache (List TLItem × Nat) UIContent
  token_cache : SimpleCache Nat (List TLItem)
  tokens : Option (List TLItem)

/-- Instrumented call counts for one `TokenListControl.create_content`
invocation. -/
structure TokenListCounts where
  get_tokens_calls : Nat
  content_builds : Nat
deriving DecidableEq, Repr

/-- `TokenListControl.create_content`.  The application object is reduced to
the `render_counter` (the only observation `_get_tokens_cached` makes of
it); `get_tokens` is the token producer callback. -/
def TokenListControl.create_content (get_tokens : Nat → List TLItem)
    (render_counter : Nat) (width : Nat) (st : TokenListState) :
    UIContent × TokenListState × TokenListCounts :=
  let tr := st.token_cache.get render_counter (fun _ => get_tokens render_counter)
  let tokens_with_mouse_handlers := tr.1
  let lines := TokenListControl.token_lines tokens_with_mouse_handlers
  let key := (tokens_with_mouse_handlers, width)
  let get_content : Unit → UIContent := fun _ =>
    UIContent.make (fun i => pyIndex lines i) (lines.length : Int)
      (get_cursor_position lines Token.SetCursorPosition 0)
      (get_cursor_position lines Token.SetMenuPosition 0) true
  let cr := st.content_cache.get key get_content
  (cr.1, ⟨cr.2.1, tr.2.1, some tokens_with_mouse_handlers⟩,
    ⟨if tr.2.2 then 1 else 0, if cr.2.2 then 1 else 0⟩)

/-- `DummyControl.create_content`: no lines, an effectively unbounded line
count. -/
def DummyControl.create_content (_width _height : Nat) : UIContent :=
  UIContent.make (fun _ => Except.ok []) ((100 : Int) ^ 100) none none true

/-- C8: `UIContent` index access raises `IndexError` exactly at
`lineno ≥ line_count` and otherwise returns `get_line lineno`; the dummy
filler content has `line_count = 100 ^ 100` and its line 0 is the empty
segment list. -/
theorem uicontent_getitem_bounds (c : UIContent) (lineno : Int) (w h : Nat) :
    (c.line_count ≤ lineno → c.getitem lineno = Except.error ())
    ∧ (0 ≤ lineno → lineno < c.line_count → c.getitem lineno = c.get_line lineno)
    ∧ (DummyControl.create_content w h).line_count = (100 : Int) ^ 100
    ∧ (DummyControl.create_content w h).getitem 0 = Except.ok [] := by
  refine ⟨?_, ?_, rfl, ?_⟩
  · intro hge
    unfold UIContent.getitem
    rw [if_neg (by omega)]
  · intro h0 hlt
    unfold UIContent.getitem
    rw [if_pos hlt]
  · unfold DummyControl.create_content UIContent.make UIContent.getitem
    rw [if_pos (by positivity)]

/-- A one-line `UIContent` used to witness C8. -/
def contentC8 : UIContent :=
  ⟨fun _ => Except.ok [(Token.Root, "w")], 1, ⟨0, 0⟩, none, true⟩

/-- Witness for C8: out-of-range access on a one-line content errors,
in-range access returns the line, and the dummy content behaves as stated. -/
theorem uicontent_getitem_bounds_witness :
    (contentC8.getitem 5 = Except.error ())
    ∧ (contentC8.getitem 0 = contentC8.get_line 0)
    ∧ (DummyControl.create_content 3 2).line_count = (100 : Int) ^ 100
    ∧ (DummyControl.create_content 3 2).getitem 0 = Except.ok [] :=
  ⟨(uicontent_getitem_bounds contentC8 5 3 2).1 (by decide),
   (uicontent_getitem_bounds contentC8 0 3 2).2.1 (by decide) (by decide),
   (uicontent_getitem_bounds contentC8 0 3 2).2.2.1,
   (uicontent_getitem_bounds contentC8 0 3 2).2.2.2⟩

/-- Python indexing at an in-range negative index returns the element
counted from the end of the list. -/
theorem pyIndex_neg (xs : List (List Segment)) (i : Int) (h1 : i < 0)
    (h2 : 0 ≤ i + (xs.length : Int)) :
    pyIndex xs i = Except.ok (xs.getD (i + (xs.length : Int)).toNat []) := by
  unfold pyIndex
  rw [if_neg (by omega), if_pos h2]
  have hn : (i + (xs.length : Int)).toNat < xs.length := by omega
  cases hxe : xs.get? (i + (xs.length : Int)).toNat with
  | none =>
    have := List.get?_eq_none.mp hxe
    omega
  | some v =>
    have hd : xs.getD (i + (xs.length : Int)).toNat [] = v := by
      rw [List.getD_eq_getElem?_getD, ← List.get?_eq_getElem?, hxe]
      rfl
    rw [hd]

/-- Python indexing at a negative index below `-length` raises. -/
theorem pyIndex_neg_oob (xs : List (List Segment)) (i : Int)
    (h2 : i + (xs.length : Int) < 0) :
    pyIndex xs i = Except.error () := by
  unfold pyIndex
  rw [if_neg (by omega), if_neg (by omega)]

/-- The fresh state of a `TokenListControl` as built by `__init__`
(content cache of size 18, token cache of size 1, no render info). -/
def TokenListState.fresh : TokenListState :=
  ⟨⟨18, []⟩, ⟨1, []⟩, none⟩

/-- A one-line static token list used for the C9 counterexample. -/
def tokensC9 : List TLItem := [(Token.Root, "x", none)]

/-- The content produced for `tokensC9`. -/
def contentC9 : UIContent :=
  (TokenListControl.create_content (fun _ => tokensC9) 0 80 TokenListState.fresh).1

/-- C9 counterexample: for a token-list content with a single line,
`UIContent[-2]` does not yield a line counted from the end — the guard
passes but the underlying Python list access raises `IndexError`, so a
negative index is not always served. -/
theorem negative_index_counterexample :
    contentC9.line_count = 1 ∧ contentC9.getitem (-2) = Except.error () := by
  constructor
  · rfl
  · rfl

/-- With fresh caches, `TokenListControl.create_content` returns the content
built from the split token lines. -/
theorem token_list_create_content_fresh (gt : Nat → List TLItem) (rc w : Nat)
    (st : TokenListState) (ht : st.token_cache.entries = [])
    (hc : st.content_cache.entries = []) :
    (TokenListControl.create_content gt rc w st).1
      = UIContent.make
          (fun i => pyIndex (TokenListControl.token_lines (gt rc)) i)
          ((TokenListControl.token_lines (gt rc)).length : Int)
          (get_cursor_position (TokenListControl.token_lines (gt rc))
            Token.SetCursorPosition 0)
          (get_cursor_position (TokenListControl.token_lines (gt rc))
            Token.SetMenuPosition 0) true := by
  simp [TokenListControl.create_content, SimpleCache.get, SimpleCache.find, ht, hc]

/-- C9 (amended): the `lineno < line_count` guard of `UIContent.__getitem__`
accepts every negative index (when `line_count ≥ 0`), so `get_line` is
invoked; for a token-list content a negative index within `-line_count`
yields the line counted from the end of the line list, while a negative
index below `-line_count` raises `IndexError` from the list access inside
`get_line` itself. -/
theorem negative_index_amended (c : UIContent) (lineno : Int)
    (gt : Nat → List TLItem) (rc w : Nat) (st : TokenListState) (i j : Int)
    (h1 : lineno < 0) (h2 : 0 ≤ c.line_count)
    (ht : st.token_cache.entries = []) (hc : st.content_cache.entries = [])
    (hi1 : i < 0)
    (hi2 : 0 ≤ i + ((TokenListControl.token_lines (gt rc)).length : Int))
    (hj : j + ((TokenListControl.token_lines (gt rc)).length : Int) < 0) :
    c.getitem lineno = c.get_line lineno
    ∧ (TokenListControl.create_content gt rc w st).1.getitem i
        = Except.ok ((TokenListControl.token_lines (gt rc)).getD
            (i + ((TokenListControl.token_lines (gt rc)).length : Int)).toNat [])
    ∧ (TokenListControl.create_content gt rc w st).1.getitem j
        = Except.error () := by
  have hcontent := token_list_create_content_fresh gt rc w st ht hc
  refine ⟨?_, ?_, ?_⟩
  · unfold UIContent.getitem
    rw [if_pos (by omega)]
  · rw [hcontent]
    simp only [UIContent.getitem, UIContent.make]
    rw [if_pos (by omega)]
    exact pyIndex_neg _ i hi1 hi2
  · rw [hcontent]
    simp only [UIContent.getitem, UIContent.make]
    rw [if_pos (by omega)]
    exact pyIndex_neg_oob _ j hj

/-- A two-line static token list used to witness C9's amended theorem. -/
def tokensC9W : List TLItem := [(Token.Root, "a\nb", none)]

/-- Witness for C9's amended theorem: on the two-line content, index `-1`
yields the last line and index `-3` raises. -/
theorem negative_index_amended_witness :
    contentC8.getitem (-1) = contentC8.get_line (-1)
    ∧ (TokenListControl.create_content (fun _ => tokensC9W) 0 80
        TokenListState.fresh).1.getitem (-1)
        = Except.ok ((TokenListControl.token_lines tokensC9W).getD
            ((-1) + ((TokenListControl.token_lines tokensC9W).length : Int)).toNat [])
    ∧ (TokenListControl.create_content (fun _ => tokensC9W) 0 80
        TokenListState.fresh).1.getitem (-3) = Except.error () :=
  negative_index_amended contentC8 (-1) (fun _ => tokensC9W) 0 80
    TokenListState.fresh (-1) (-3) (by decide) (by decide) rfl rfl
    (by decide) (by decide) (by decide)

/-- `_ProcessedLine`: the result of applying the transform chain to one
source line. -/
structure ProcessedLine where
  tokens : List Segment
  source_to_display : Int → Int
  display_to_source : Int → Int

/-- The object returned by the processor chain (`Transformation`, from
`prompt_toolkit.layout.processors`, consumed through its three
attributes). -/
structure Transformation where
  tokens : List Segment
  source_to_display : Int → Int
  display_to_source : Int → Int

/-- `TransformationInput` as constructed at the `apply_transformation` call
site of `_create_get_processed_line_func`: the document, the line number,
the identity `source_to_display` seed, the line's tokens and the geometry.
The `app` and control arguments of the source call are opaque environment
references with no observable content and are not modelled. -/
structure TransformationInput where
  document : Document
  lineno : Int
  source_to_display : Int → Int
  tokens : List Segment
  width : Nat
  height : Nat

/-- The merged input processor: a strategy object with one capability. -/
structure Processor where
  apply_transformation : TransformationInput → Transformation

/-- Build the `TransformationInput` passed to the chain for one line. -/
def BufferControl.chain_input (document : Document) (lineno : Int)
    (tokens : List Segment) (width height : Nat) : TransformationInput :=
  ⟨document, lineno, fun i => i, tokens, width, height⟩

/-- The `transform` closure of `_create_get_processed_line_func`: compute
the cursor column when the cursor falls on this line, apply the processor
chain once, map the (truthy, i.e. non-zero) cursor column through the
returned `source_to_display`, and build the `_ProcessedLine`.  The mapped
cursor column is dead in the source as well: it is rebound and never read
afterwards, and it is not part of the chain input. -/
def BufferControl.transform (P : Processor) (document : Document)
    (width height : Nat) (lineno : Int) (tokens : List Segment) : ProcessedLine :=
  let cursor_column : Option Int :=
    if document.cursor_position_row = lineno then some document.cursor_position_col
    else none
  let transformation :=
    P.apply_transformation (BufferControl.chain_input document lineno tokens width height)
  let _cursor_column :=
    match cursor_column with
    | some cc => if cc ≠ 0 then some (transformation.source_to_display cc) else some cc
    | none => none
  ⟨transformation.tokens, transformation.source_to_display,
    transformation.display_to_source⟩

/-- Selection types (`prompt_toolkit.selection`). -/
inductive SelectionType where
  | CHARACTERS
  | LINES
  | BLOCK
deriving DecidableEq, Repr

/-- `SelectionState`: anchor position and selection type. -/
structure SelectionState where
  original_cursor_position : Int
  type : SelectionType
deriving DecidableEq, Repr

/-- The completion state observed through
`complete_state.original_document.cursor_position`. -/
structure CompleteState where
  original_document : Document

/-- The `Buffer` collaborator, reduced to the attributes this module reads
and writes.  Its document is derived from the cursor by the ambient `docOf`
function (the buffer's text is fixed within one scenario). -/
structure Buffer where
  cursor_position : Int
  selection_state : Option SelectionState
  complete_state : Option CompleteState

/-- Modelled from the spec: `Buffer.exit_selection`
(`prompt_toolkit.buffer`, outside this module) clears the active
selection. -/
def Buffer.exit_selection (b : Buffer) : Buffer :=
  { b with selection_state := none }

/-- Modelled from the spec: `Buffer.start_selection` begins a selection of
the given type anchored at the current cursor position. -/
def Buffer.start_selection (b : Buffer) (t : SelectionType) : Buffer :=
  { b with selection_state := some ⟨b.cursor_position, t⟩ }

/-- The mutable attributes of a `BufferControl` (`_token_cache`,
`_last_get_processed_line`, `_last_click_timestamp`). -/
structure BufferControlState where
  token_cache : SimpleCache String (Int → List Segment)
  last_get_processed_line : Option (Int → ProcessedLine)
  last_click_timestamp : Option ℚ

/-- Instrumented call counts for one `BufferControl.create_content`
invocation: lexer invocations (`lex_document` runs) and transform-chain
applications forced during the call. -/
structure BufferControlCounts where
  lex_calls : Nat
  transform_calls : Nat
deriving DecidableEq, Repr

/-- Force one line of the per-pass memoized resolver: the second component
is `1` exactly when the transform chain runs for a line not yet in the
per-pass memo. -/
def force_line (memo : List Int) (i : Int) : List Int × Nat :=
  if i ∈ memo then (memo, 0) else (i :: memo, 1)

/-- `BufferControl.create_content`.  Parameters stand for the constructor
configuration and collaborators: `lexer` is `lexer.lex_document`, `P` the
merged input processor, `focus` the `app.layout.current_control == self`
test, `menu_cb` the optional `menu_position` callback (already applied to
the application object), `preview_now`/`search_document` the resolved
search-preview state, and `docOf` derives the buffer's document from its
cursor offset.  Returns the content, the updated control state, and the
instrumented call counts of this invocation. -/
def BufferControl.create_content (lexer : Document → Int → List Segment)
    (P : Processor) (focus : Bool) (menu_cb : Option (Option Int))
    (preview_now : Bool) (search_document : Document)
    (docOf : Int → Document) (b : Buffer) (width height : Nat)
    (st : BufferControlState) :
    UIContent × BufferControlState × BufferControlCounts :=
  let document := if preview_now then search_document else docOf b.cursor_position
  let tr := st.token_cache.get document.text (fun _ => lexer document)
  let get_line_tokens := tr.1
  let gpl : Int → ProcessedLine := fun i =>
    BufferControl.transform P document width height i (get_line_tokens i)
  let translate_rowcol : Int → Int → Point := fun row col =>
    ⟨(gpl row).source_to_display col, row⟩
  let f1 := force_line [] document.cursor_position_row
  let get_line : Int → Except Unit (List Segment) := fun i =>
    Except.ok ((gpl i).tokens ++ [(Token.Root, " ")])
  let cursor_position :=
    translate_rowcol document.cursor_position_row document.cursor_position_col
  let menu : Option Point × List Int × Nat :=
    if focus then
      match menu_cb with
      | some (some mp) =>
        let rc := (docOf b.cursor_position).translate_index_to_position mp
        let f2 := force_line f1.1 rc.1
        (some (translate_rowcol rc.1 rc.2), f2.1, f2.2)
      | some none | none =>
        match b.complete_state with
        | some cs =>
          let rc := (docOf b.cursor_position).translate_index_to_position
            (min b.cursor_position cs.original_document.cursor_position)
          let f2 := force_line f1.1 rc.1
          (some (translate_rowcol rc.1 rc.2), f2.1, f2.2)
        | none => (none, f1.1, 0)
    else (none, f1.1, 0)
  let content := UIContent.make get_line document.line_count
    (some cursor_position) menu.1 true
  (content,
    ⟨tr.2.1, some gpl, st.last_click_timestamp⟩,
    ⟨if tr.2.2 then 1 else 0, f1.2 + menu.2.2⟩)

/-- A concrete two-line document whose cursor sits on row 0, column 2, used
for the C4 counterexample. -/
def docC4 : Document :=
  ⟨"ab", 2, 2, 0, 2, fun _ => (0, 0), fun _ _ => 0, (0, 0)⟩

/-- C4 counterexample: the chain input built for line 1 — a line not
containing the cursor — still carries the cursor's source column (inside its
`document` field), and the input built for the cursor's line 0 differs from
the line-1 input only in the `lineno` field; so no cursor-column component
is passed to the chain on cursor lines, and none is withheld on other
lines. -/
theorem cursor_column_not_passed_counterexample :
    (BufferControl.chain_input docC4 1 [] 80 24).document.cursor_position_col = 2
    ∧ BufferControl.chain_input docC4 0 [] 80 24
        = { BufferControl.chain_input docC4 1 [] 80 24 with lineno := 0 } :=
  ⟨rfl, rfl⟩

/-- C4 (amended): the transform chain's input is built uniformly for every
line (document — which carries the cursor row and column on every line —
line number, identity seed, the line's tokens, width and height), and the
`_ProcessedLine` is exactly the chain's output; the per-line cursor column
the source computes is not part of the chain input and its mapped value is
discarded. -/
theorem cursor_column_uniform_input (P : Processor) (document : Document)
    (width height : Nat) (lineno l2 : Int) (tokens : List Segment) :
    BufferControl.transform P document width height lineno tokens
      = ⟨(P.apply_transformation
            (BufferControl.chain_input document lineno tokens width height)).tokens,
          (P.apply_transformation
            (BufferControl.chain_input document lineno tokens width height)).source_to_display,
          (P.apply_transformation
            (BufferControl.chain_input document lineno tokens width height)).display_to_source⟩
    ∧ BufferControl.chain_input document lineno tokens width height
        = { BufferControl.chain_input document l2 tokens width height with
              lineno := lineno } :=
  ⟨rfl, rfl⟩

/-- Mouse event kinds (`prompt_toolkit.mouse_events`). -/
inductive MouseEventType where
  | MOUSE_DOWN
  | MOUSE_UP
  | SCROLL_UP
  | SCROLL_DOWN
deriving DecidableEq, Repr

/-- A mouse event: display position and kind. -/
structure MouseEvent where
  position : Point
  event_type : MouseEventType

/-- The outcome of a mouse handler: Python `None` (the event was consumed)
or the distinguished `NotImplemented` marker (the caller may reinterpret the
event). -/
inductive HandlerResult where
  | handled
  | notImplemented
deriving DecidableEq, Repr

/-- `BufferControl.mouse_handler`.  `now` is the value of `time.time()`
during this invocation; the returned `Bool` records whether the control
grabbed the focus (`app.layout.current_control = self`). -/
def BufferControl.mouse_handler (docOf : Int → Document) (focus : Bool)
    (focus_on_click : Bool) (ev : MouseEvent) (now : ℚ) (b : Buffer)
    (st : BufferControlState) :
    HandlerResult × Buffer × BufferControlState × Bool :=
  if focus then
    match st.last_get_processed_line with
    | some gpl =>
      let processed_line := gpl ev.position.y
      let xpos := processed_line.display_to_source ev.position.x
      let index := (docOf b.cursor_position).translate_row_col_to_index ev.position.y xpos
      match ev.event_type with
      | MouseEventType.MOUSE_DOWN =>
        (HandlerResult.handled,
          { b.exit_selection with cursor_position := index }, st, false)
      | MouseEventType.MOUSE_UP =>
        let b :=
          if 1 < |b.cursor_position - index| then
            { b.start_selection SelectionType.CHARACTERS with cursor_position := index }
          else b
        let double_click : Bool :=
          match st.last_click_timestamp with
          | some t => decide (t ≠ 0) && decide (now - t < 3 / 10)
          | none => false
        let st := { st with last_click_timestamp := some now }
        if double_click then
          let se := (docOf b.cursor_position).find_boundaries_of_current_word
          let b := { b with cursor_position := b.cursor_position + se.1 }
          let b := b.start_selection SelectionType.CHARACTERS
          let b := { b with cursor_position := b.cursor_position + (se.2 - se.1) }
          (HandlerResult.handled, b, st, false)
        else
          (HandlerResult.handled, b, st, false)
      | _ => (HandlerResult.notImplemented, b, st, false)
    | none => (HandlerResult.handled, b, st, false)
  else
    if focus_on_click ∧ ev.event_type = MouseEventType.MOUSE_UP then
      (HandlerResult.handled, b, st, true)
    else
      (HandlerResult.notImplemented, b, st, false)

/-- C10: a focused `BufferControl` whose `_last_get_processed_line` has not
yet been set by a render pass consumes every mouse event (returns `None`,
not `NotImplemented`) and leaves the buffer — cursor and selection — and the
control state untouched. -/
theorem mouse_handler_before_render (docOf : Int → Document)
    (focus_on_click : Bool) (ev : MouseEvent) (now : ℚ) (b : Buffer)
    (st : BufferControlState) (h : st.last_get_processed_line = none) :
    BufferControl.mouse_handler docOf true focus_on_click ev now b st
      = (HandlerResult.handled, b, st, false) := by
  unfold BufferControl.mouse_handler
  rw [if_pos rfl, h]

/-- A trivial document used to witness C10 and C6. -/
def docTrivial : Document :=
  ⟨"", 1, 0, 0, 0, fun _ => (0, 0), fun _ _ => 0, (0, 0)⟩

/-- Witness for C10 at a concrete scroll event on a fresh control state. -/
theorem mouse_handler_before_render_witness :
    BufferControl.mouse_handler (fun _ => docTrivial) true false
        ⟨⟨0, 0⟩, MouseEventType.SCROLL_UP⟩ 1 ⟨0, none, none⟩ ⟨⟨8, []⟩, none, none⟩
      = (HandlerResult.handled, ⟨0, none, none⟩, ⟨⟨8, []⟩, none, none⟩, false) :=
  mouse_handler_before_render (fun _ => docTrivial) false
    ⟨⟨0, 0⟩, MouseEventType.SCROLL_UP⟩ 1 ⟨0, none, none⟩ ⟨⟨8, []⟩, none, none⟩ rfl

/-- A one-token lexer used by concrete scenarios. -/
def lexerK : Document → Int → List Segment := fun _ _ => [(Token.Root, "x")]

/-- The identity-like processor: keeps tokens and the seed coordinate map. -/
def PK : Processor := ⟨fun inp => ⟨inp.tokens, inp.source_to_display, fun i => i⟩⟩

/-- A one-line document with the cursor at the origin. -/
def docK : Document := ⟨"x", 1, 0, 0, 0, fun _ => (0, 0), fun _ _ => 0, (0, 0)⟩

/-- A buffer with no selection and no completion. -/
def bK : Buffer := ⟨0, none, none⟩

/-- A completion state whose original document is `docK`. -/
def csK : CompleteState := ⟨docK⟩

/-- A buffer with an active completion state. -/
def bKc : Buffer := ⟨0, none, some csK⟩

/-- The fresh state of a `BufferControl` as built by `__init__`. -/
def stK : BufferControlState := ⟨⟨8, []⟩, none, none⟩

/-- C2: every line of the `UIContent` produced by
`BufferControl.create_content` is the processed line's display tokens with
exactly one style-neutral single-space segment appended, uniformly on every
line (not only the cursor's line). -/
theorem buffer_get_line_appends_space (lexer : Document → Int → List Segment)
    (P : Processor) (focus : Bool) (menu_cb : Option (Option Int))
    (preview_now : Bool) (search_document : Document) (docOf : Int → Document)
    (b : Buffer) (width height : Nat) (st : BufferControlState) (i : Int)
    (hfresh : st.token_cache.entries = [])
    (h0 : 0 ≤ i)
    (h1 : i < (BufferControl.create_content lexer P focus menu_cb preview_now
        search_document docOf b width height st).1.line_count) :
    (BufferControl.create_content lexer P focus menu_cb preview_now
        search_document docOf b width height st).1.get_line i
      = Except.ok ((BufferControl.transform P
            (if preview_now then search_document else docOf b.cursor_position)
            width height i
            (lexer (if preview_now then search_document else docOf b.cursor_position)
              i)).tokens
          ++ [(Token.Root, " ")]) := by
  simp [BufferControl.create_content, SimpleCache.get, SimpleCache.find, hfresh,
    UIContent.make]

/-- Witness for C2 on a concrete one-line render. -/
theorem buffer_get_line_appends_space_witness :
    (BufferControl.create_content lexerK PK false none false docK (fun _ => docK)
        bK 80 24 stK).1.get_line 0
      = Except.ok ((BufferControl.transform PK docK 80 24 0
            (lexerK docK 0)).tokens ++ [(Token.Root, " ")]) := by
  have h := buffer_get_line_appends_space lexerK PK false none false docK
    (fun _ => docK) bK 80 24 stK 0 rfl (by decide) (by decide)
  exact h

/-- C5: when the control holds focus, no menu-position callback is
configured and the buffer has completion state, the menu position is the
display-space translation of the row/column of the source offset
`min(current cursor offset, completion's original document cursor offset)`;
when the control is not focused, or is focused with neither a callback nor
completion state, no menu position is produced (and nothing fails). -/
theorem menu_position_completion (lexer : Document → Int → List Segment)
    (P : Processor) (menu_cb : Option (Option Int)) (preview_now : Bool)
    (search_document : Document) (docOf : Int → Document) (b b2 : Buffer)
    (width height : Nat) (st : BufferControlState) (cs : CompleteState)
    (hfresh : st.token_cache.entries = [])
    (hcs : b.complete_state = some cs)
    (hb2 : b2.complete_state = none) :
    (BufferControl.create_content lexer P true none preview_now search_document
        docOf b width height st).1.menu_position
      = some ⟨(BufferControl.transform P
            (if preview_now then search_document else docOf b.cursor_position)
            width height
            ((docOf b.cursor_position).translate_index_to_position
              (min b.cursor_position cs.original_document.cursor_position)).1
            (lexer (if preview_now then search_document else docOf b.cursor_position)
              ((docOf b.cursor_position).translate_index_to_position
                (min b.cursor_position cs.original_document.cursor_position)).1)).source_to_display
            ((docOf b.cursor_position).translate_index_to_position
              (min b.cursor_position cs.original_document.cursor_position)).2,
          ((docOf b.cursor_position).translate_index_to_position
            (min b.cursor_position cs.original_document.cursor_position)).1⟩
    ∧ (BufferControl.create_content lexer P false menu_cb preview_now
        search_document docOf b width height st).1.menu_position = none
    ∧ (BufferControl.create_content lexer P true none preview_now search_document
        docOf b2 width height st).1.menu_position = none := by
  refine ⟨?_, ?_, ?_⟩
  · simp [BufferControl.create_content, SimpleCache.get, SimpleCache.find, hfresh,
      UIContent.make, hcs]
  · simp [BufferControl.create_content, UIContent.make]
  · simp [BufferControl.create_content, UIContent.make, hb2]

/-- Witness for C5: with completion active the menu anchors at the
translated minimum offset; unfocused and completion-free renders produce no
menu position. -/
theorem menu_position_completion_witness :
    (BufferControl.create_content lexerK PK true none false docK (fun _ => docK)
        bKc 80 24 stK).1.menu_position = some ⟨0, 0⟩
    ∧ (BufferControl.create_content lexerK PK false none false docK
        (fun _ => docK) bKc 80 24 stK).1.menu_position = none
    ∧ (BufferControl.create_content lexerK PK true none false docK
        (fun _ => docK) bK 80 24 stK).1.menu_position = none := by
  have h := menu_position_completion lexerK PK none false docK (fun _ => docK)
    bKc bK 80 24 stK csK rfl rfl rfl
  exact h

/-- A focused `MOUSE_DOWN` with a render pass available clears the selection
and moves the cursor to the resolved source offset. -/
theorem mouse_down_sets_cursor (docOf : Int → Document) (fc : Bool)
    (gpl : Int → ProcessedLine) (p : Point) (t : ℚ) (b : Buffer)
    (st : BufferControlState) (hgpl : st.last_get_processed_line = some gpl) :
    BufferControl.mouse_handler docOf true fc ⟨p, MouseEventType.MOUSE_DOWN⟩ t b st
      = (HandlerResult.handled,
          ⟨(docOf b.cursor_position).translate_row_col_to_index p.y
            ((gpl p.y).display_to_source p.x), none, b.complete_state⟩,
          st, false) := by
  simp [BufferControl.mouse_handler, hgpl, Buffer.exit_selection]

/-- A focused `MOUSE_UP` with a render pass available always records the
click timestamp and never touches the completion state, whatever branch is
taken. -/
theorem mouse_up_state_effects (docOf : Int → Document) (fc : Bool)
    (gpl : Int → ProcessedLine) (p : Point) (now : ℚ) (b : Buffer)
    (st : BufferControlState) (hgpl : st.last_get_processed_line = some gpl) :
    (BufferControl.mouse_handler docOf true fc ⟨p, MouseEventType.MOUSE_UP⟩ now
        b st).2.2.1
      = ⟨st.token_cache, st.last_get_processed_line, some now⟩
    ∧ (BufferControl.mouse_handler docOf true fc ⟨p, MouseEventType.MOUSE_UP⟩ now
        b st).2.1.complete_state
      = b.complete_state := by
  unfold BufferControl.mouse_handler
  rw [if_pos rfl]
  simp only [hgpl, Buffer.start_selection]
  constructor
  · split <;> split <;> rfl
  · split <;> split <;> rfl

/-- A focused `MOUSE_UP` at the current cursor position, arriving within
300 ms of the previous (non-zero) click timestamp, is a double click: it
selects the word around the cursor, as delimited by the document's
word-boundary lookup. -/
theorem mouse_up_double_click (docOf : Int → Document) (fc : Bool)
    (gpl : Int → ProcessedLine) (p : Point) (t1 now : ℚ) (b : Buffer)
    (st : BufferControlState) (index : Int)
    (hgpl : st.last_get_processed_line = some gpl)
    (hidx : (docOf b.cursor_position).translate_row_col_to_index p.y
        ((gpl p.y).display_to_source p.x) = index)
    (hb : b.cursor_position = index)
    (hts : st.last_click_timestamp = some t1)
    (h0 : t1 ≠ 0) (hlt : now - t1 < 3 / 10) :
    BufferControl.mouse_handler docOf true fc ⟨p, MouseEventType.MOUSE_UP⟩ now b st
      = (HandlerResult.handled,
          ⟨index + (docOf index).find_boundaries_of_current_word.2,
            some ⟨index + (docOf index).find_boundaries_of_current_word.1,
              SelectionType.CHARACTERS⟩,
            b.complete_state⟩,
          ⟨st.token_cache, st.last_get_processed_line, some now⟩, false) := by
  have hd1 : decide (t1 ≠ 0) = true := decide_eq_true h0
  have hd2 : decide (now - t1 < 3 / 10) = true := decide_eq_true hlt
  unfold BufferControl.mouse_handler
  rw [if_pos rfl]
  rw [hb] at hidx
  simp only [hgpl, hts, hd1, hd2, hb, hidx, Buffer.start_selection, Bool.and_self]
  rw [if_pos trivial]
  rw [if_neg (show ¬ (1 < |index - index|) by simp)]
  simp only [hb]
  simp only [Prod.mk.injEq, Buffer.mk.injEq, and_true, true_and]
  omega

/-- C6: a double click — press and release, then press and release again at
the same display position, the second release less than 300 ms after the
first — replaces the selection with the boundaries of the current word
around the resolved source offset: the final selection is a character-type
selection anchored at the word's start with the cursor at the word's end.
`hres` states that the display position resolves to the source offset
`index` (the same resolved offset at every event of the scenario). -/
theorem double_click_selects_word (docOf : Int → Document)
    (gpl : Int → ProcessedLine) (fc : Bool) (b0 : Buffer)
    (st0 : BufferControlState) (p : Point) (t0 t1 ta t2 : ℚ) (index : Int)
    (hgpl : st0.last_get_processed_line = some gpl)
    (hres : ∀ cpos : Int, (docOf cpos).translate_row_col_to_index p.y
        ((gpl p.y).display_to_source p.x) = index)
    (ht1 : t1 ≠ 0) (ht : t2 - t1 < 3 / 10) :
    (let r1 := BufferControl.mouse_handler docOf true fc
      ⟨p, MouseEventType.MOUSE_DOWN⟩ t0 b0 st0
    let r2 := BufferControl.mouse_handler docOf true fc
      ⟨p, MouseEventType.MOUSE_UP⟩ t1 r1.2.1 r1.2.2.1
    let r3 := BufferControl.mouse_handler docOf true fc
      ⟨p, MouseEventType.MOUSE_DOWN⟩ ta r2.2.1 r2.2.2.1
    let r4 := BufferControl.mouse_handler docOf true fc
      ⟨p, MouseEventType.MOUSE_UP⟩ t2 r3.2.1 r3.2.2.1
    r4.1 = HandlerResult.handled
    ∧ r4.2.1.selection_state
        = some ⟨index + (docOf index).find_boundaries_of_current_word.1,
            SelectionType.CHARACTERS⟩
    ∧ r4.2.1.cursor_position
        = index + (docOf index).find_boundaries_of_current_word.2) := by
  have e1 : BufferControl.mouse_handler docOf true fc
      ⟨p, MouseEventType.MOUSE_DOWN⟩ t0 b0 st0
      = (HandlerResult.handled, ⟨index, none, b0.complete_state⟩, st0, false) := by
    have h1 := mouse_down_sets_cursor docOf fc gpl p t0 b0 st0 hgpl
    rw [hres b0.cursor_position] at h1
    exact h1
  dsimp only
  rw [e1]
  dsimp only
  obtain ⟨e2s, e2c⟩ := mouse_up_state_effects docOf fc gpl p t1
    ⟨index, none, b0.complete_state⟩ st0 hgpl
  have e3 : BufferControl.mouse_handler docOf true fc
      ⟨p, MouseEventType.MOUSE_DOWN⟩ ta
      (BufferControl.mouse_handler docOf true fc ⟨p, MouseEventType.MOUSE_UP⟩ t1
        ⟨index, none, b0.complete_state⟩ st0).2.1
      (BufferControl.mouse_handler docOf true fc ⟨p, MouseEventType.MOUSE_UP⟩ t1
        ⟨index, none, b0.complete_state⟩ st0).2.2.1
      = (HandlerResult.handled, ⟨index, none, b0.complete_state⟩,
          ⟨st0.token_cache, st0.last_get_processed_line, some t1⟩, false) := by
    rw [e2s]
    have h3 := mouse_down_sets_cursor docOf fc gpl p ta
      (BufferControl.mouse_handler docOf true fc ⟨p, MouseEventType.MOUSE_UP⟩ t1
        ⟨index, none, b0.complete_state⟩ st0).2.1
      ⟨st0.token_cache, st0.last_get_processed_line, some t1⟩ hgpl
    rw [hres, e2c] at h3
    exact h3
  rw [e3]
  dsimp only
  have e4 := mouse_up_double_click docOf fc gpl p t1 t2
    ⟨index, none, b0.complete_state⟩
    ⟨st0.token_cache, st0.last_get_processed_line, some t1⟩ index hgpl
    (hres index) rfl rfl ht1 ht
  rw [e4]
  exact ⟨rfl, rfl, rfl⟩

/-- The document family for the C6 witness: text `"ab cd"`, every display
click resolving to source offset 1, word boundaries `(-1, 1)` around the
cursor. -/
def docOfW : Int → Document :=
  fun c => ⟨"ab cd", 1, c, 0, 0, fun _ => (0, 0), fun _ _ => 1, (-1, 1)⟩

/-- An identity processed line for the C6 witness. -/
def gplW : Int → ProcessedLine := fun _ => ⟨[], fun i => i, fun i => i⟩

/-- A control state that has produced a render pass (for the C6 witness). -/
def stW : BufferControlState := ⟨⟨8, []⟩, some gplW, none⟩

/-- Witness for C6: a concrete double click (release at `t = 1`, second
release at `t = 11/10`) selects the word around offset 1. -/
theorem double_click_selects_word_witness :
    (let r1 := BufferControl.mouse_handler docOfW true false
      ⟨⟨0, 0⟩, MouseEventType.MOUSE_DOWN⟩ 0 bK stW
    let r2 := BufferControl.mouse_handler docOfW true false
      ⟨⟨0, 0⟩, MouseEventType.MOUSE_UP⟩ 1 r1.2.1 r1.2.2.1
    let r3 := BufferControl.mouse_handler docOfW true false
      ⟨⟨0, 0⟩, MouseEventType.MOUSE_DOWN⟩ 2 r2.2.1 r2.2.2.1
    let r4 := BufferControl.mouse_handler docOfW true false
      ⟨⟨0, 0⟩, MouseEventType.MOUSE_UP⟩ (11 / 10) r3.2.1 r3.2.2.1
    r4.1 = HandlerResult.handled
    ∧ r4.2.1.selection_state
        = some ⟨1 + (docOfW 1).find_boundaries_of_current_word.1,
            SelectionType.CHARACTERS⟩
    ∧ r4.2.1.cursor_position
        = 1 + (docOfW 1).find_boundaries_of_current_word.2) :=
  double_click_selects_word docOfW gplW false bK stW ⟨0, 0⟩ 0 1 2 (11 / 10) 1
    rfl (fun _ => rfl) (by norm_num) (by norm_num)

/-- Every `BufferControl.create_content` call forces the cursor's line
through the transform chain afresh: the per-pass memo starts empty, so at
least one transform application happens on every call. -/
theorem create_content_transform_calls_pos (lexer : Document → Int → List Segment)
    (P : Processor) (focus : Bool) (menu_cb : Option (Option Int))
    (preview_now : Bool) (search_document : Document) (docOf : Int → Document)
    (b : Buffer) (width height : Nat) (st : BufferControlState) :
    1 ≤ (BufferControl.create_content lexer P focus menu_cb preview_now
        search_document docOf b width height st).2.2.transform_calls := by
  simp [BufferControl.create_content, force_line]

/-- The first render of the C3 scenario. -/
def run1C3 : UIContent × BufferControlState × BufferControlCounts :=
  BufferControl.create_content lexerK PK false none false docK (fun _ => docK)
    bK 80 24 stK

/-- The second, identical render of the C3 scenario. -/
def run2C3 : UIContent × BufferControlState × BufferControlCounts :=
  BufferControl.create_content lexerK PK false none false docK (fun _ => docK)
    bK 80 24 run1C3.2.1

/-- C3 counterexample: re-rendering the unchanged document at the same width
re-applies the transform chain (here once, for the cursor's line) — the
second render's transform applications are not zero, because
`BufferControl.create_content` has no content cache and rebuilds its
per-pass resolver each call (the lexer cache does make its lexer calls
zero). -/
theorem rerender_not_transform_free_counterexample :
    run2C3.2.2.lex_calls = 0 ∧ run2C3.2.2.transform_calls ≠ 0 := by
  constructor
  · rfl
  · decide

/-- A static token list used in the C3 witness. -/
def tlTokensK : List TLItem := [(Token.Root, "y", none)]

/-- C3 (amended): for the static token-list control, a second
`create_content` with the same token list and width is a content-cache hit —
the cached `UIContent` object is returned and no content is rebuilt; for the
buffer control there is no content cache: a second render of the unchanged
document makes zero additional lexer calls (the lexer cache is keyed by the
document's text), but the transform chain is re-applied to every line the
second call forces — at least the cursor's line. -/
theorem rerender_cache_behaviour (lexer : Document → Int → List Segment)
    (P : Processor) (focus : Bool) (menu_cb : Option (Option Int))
    (preview_now : Bool) (search_document : Document) (docOf : Int → Document)
    (b : Buffer) (width height : Nat) (st : BufferControlState)
    (gt : Nat → List TLItem) (rc1 rc2 w2 : Nat) (stTL : TokenListState)
    (hmax : 1 ≤ st.token_cache.maxsize)
    (hTLc : 1 ≤ stTL.content_cache.maxsize)
    (hTLt : 1 ≤ stTL.token_cache.maxsize)
    (htok : stTL.token_cache.entries = [])
    (hcon : stTL.content_cache.entries = [])
    (hgt : gt rc2 = gt rc1) :
    (BufferControl.create_content lexer P focus menu_cb preview_now
        search_document docOf b width height
        (BufferControl.create_content lexer P focus menu_cb preview_now
          search_document docOf b width height st).2.1).2.2.lex_calls = 0
    ∧ 1 ≤ (BufferControl.create_content lexer P focus menu_cb preview_now
        search_document docOf b width height
        (BufferControl.create_content lexer P focus menu_cb preview_now
          search_document docOf b width height st).2.1).2.2.transform_calls
    ∧ (TokenListControl.create_content gt rc2 w2
        (TokenListControl.create_content gt rc1 w2 stTL).2.1).2.2.content_builds
      = 0
    ∧ (TokenListControl.create_content gt rc2 w2
        (TokenListControl.create_content gt rc1 w2 stTL).2.1).1
      = (TokenListControl.create_content gt rc1 w2 stTL).1 := by
  have htr1val : (stTL.token_cache.get rc1 (fun _ => gt rc1)).1 = gt rc1 := by
    simp [SimpleCache.get, SimpleCache.find, htok]
  have hins : (stTL.token_cache.get rc1 (fun _ => gt rc1)).2.1
      = ⟨stTL.token_cache.maxsize, [(rc1, gt rc1)]⟩ := by
    have hno : ¬ (stTL.token_cache.maxsize < 1) := by omega
    simp [SimpleCache.get, SimpleCache.find, SimpleCache.insert, htok, hno]
  have htr2val : ((stTL.token_cache.get rc1 (fun _ => gt rc1)).2.1.get rc2
      (fun _ => gt rc2)).1 = gt rc1 := by
    rw [hins]
    by_cases hrc : rc2 = rc1
    · subst hrc
      simp [SimpleCache.get, SimpleCache.find, List.find?]
    · have hrc1 : rc1 ≠ rc2 := fun hh => hrc hh.symm
      simp [SimpleCache.get, SimpleCache.find, List.find?, hrc1, hgt]
  refine ⟨?_, create_content_transform_calls_pos lexer P focus menu_cb preview_now
    search_document docOf b width height _, ?_, ?_⟩
  · have hg := (SimpleCache.get_get st.token_cache
      (if preview_now then search_document else docOf b.cursor_position).text
      (fun _ => lexer (if preview_now then search_document
        else docOf b.cursor_position))
      (fun _ => lexer (if preview_now then search_document
        else docOf b.cursor_position)) hmax).2
    simp only [BufferControl.create_content]
    rw [hg]
    rfl
  · simp only [TokenListControl.create_content]
    simp only [htr2val, htr1val]
    rw [(SimpleCache.get_get stTL.content_cache (gt rc1, w2) _ _ hTLc).2]
    rfl
  · simp only [TokenListControl.create_content]
    simp only [htr2val, htr1val]
    rw [(SimpleCache.get_get stTL.content_cache (gt rc1, w2) _ _ hTLc).1]

/-- Witness for C3's amended theorem on a concrete buffer render and a
concrete token list. -/
theorem rerender_cache_behaviour_witness :
    (BufferControl.create_content lexerK PK false none false docK
        (fun _ => docK) bK 80 24
        (BufferControl.create_content lexerK PK false none false docK
          (fun _ => docK) bK 80 24 stK).2.1).2.2.lex_calls = 0
    ∧ 1 ≤ (BufferControl.create_content lexerK PK false none false docK
        (fun _ => docK) bK 80 24
        (BufferControl.create_content lexerK PK false none false docK
          (fun _ => docK) bK 80 24 stK).2.1).2.2.transform_calls
    ∧ (TokenListControl.create_content (fun _ => tlTokensK) 1 40
        (TokenListControl.create_content (fun _ => tlTokensK) 0 40
          TokenListState.fresh).2.1).2.2.content_builds = 0
    ∧ (TokenListControl.create_content (fun _ => tlTokensK) 1 40
        (TokenListControl.create_content (fun _ => tlTokensK) 0 40
          TokenListState.fresh).2.1).1
      = (TokenListControl.create_content (fun _ => tlTokensK) 0 40
          TokenListState.fresh).1 :=
  rerender_cache_behaviour lexerK PK false none false docK (fun _ => docK) bK
    80 24 stK (fun _ => tlTokensK) 0 1 40 TokenListState.fresh (by decide)
    (by decide) (by decide) rfl rfl rfl

end Controls
